import Mathlib

/-!
Verification of the Duux Home Assistant climate integration
(`custom_components/duux/climate.py`) against its specification.

The payloads handled by the integration are JSON-like Python values:
`None`, booleans, integers, strings, lists, and string-keyed dicts
(insertion-ordered, modelled as association lists). Floating point
numbers are outside the modelled universe. Each Lean definition mirrors
one function, method or expression of the source file.
-/

/-- JSON-like Python value as handled by the integration. Dicts preserve
insertion order and have unique keys, modelled as association lists. -/
inductive Value where
  | none : Value
  | bool (b : Bool) : Value
  | int (n : Int) : Value
  | str (s : String) : Value
  | list (xs : List Value) : Value
  | dict (kvs : List (String × Value)) : Value

/-- First value stored under key `k`, if any (Python dict lookup). -/
def alistGet (kvs : List (String × Value)) (k : String) : Option Value :=
  match kvs with
  | [] => Option.none
  | (k2, v) :: rest => if k2 = k then some v else alistGet rest k

/-- Python `d.get(k)`: the stored value, or `None` when the key is absent. -/
def dictGet (kvs : List (String × Value)) (k : String) : Value :=
  (alistGet kvs k).getD Value.none

/-- Python truthiness of a value. -/
def Value.truthy : Value → Bool
  | Value.none => false
  | Value.bool b => b
  | Value.int n => n != 0
  | Value.str s => s != ""
  | Value.list xs => !xs.isEmpty
  | Value.dict kvs => !kvs.isEmpty

/-- Python `a or b` (value-returning, truthiness-driven). -/
def pyOr (a b : Value) : Value :=
  if a.truthy then a else b

/-- Python `v is None`. -/
def Value.isNone : Value → Bool
  | Value.none => true
  | _ => false

/-- Python `isinstance(v, dict)`. -/
def Value.isDict : Value → Bool
  | Value.dict _ => true
  | _ => false

/-- Python `isinstance(v, list)`. -/
def Value.isList : Value → Bool
  | Value.list _ => true
  | _ => false

/-- Python `v.get(k)` on a value the source has already checked with
`isinstance(v, dict)`; on non-dicts (never reached under that guard) it
returns `None`. -/
def Value.get : Value → String → Value
  | Value.dict kvs, k => dictGet kvs k
  | _, _ => Value.none

/-- Python `v == n` for an `int` literal `n`: ints compare numerically,
booleans compare as 0/1, every other modelled value compares unequal. -/
def pyEqInt (v : Value) (n : Int) : Bool :=
  match v with
  | Value.int m => m == n
  | Value.bool b => (if b then (1 : Int) else 0) == n
  | _ => false

/-- Python `v == s` for a `str` literal `s`. -/
def pyEqStr (v : Value) (s : String) : Bool :=
  match v with
  | Value.str t => t == s
  | _ => false

/-- Python hashability: lists and dicts are unhashable, scalars are
hashable. Using an unhashable value as a dict key raises `TypeError`. -/
def Value.hashable : Value → Bool
  | Value.list _ => false
  | Value.dict _ => false
  | _ => true

mutual
/-- Python `repr` of a modelled value. String escaping and quote choice
inside containers are not modelled (no claim depends on them); the
bracket and separator skeleton is the real one. -/
def pyRepr : Value → String
  | Value.none => "None"
  | Value.bool b => if b then "True" else "False"
  | Value.int n => Int.repr n
  | Value.str s => "\x27" ++ s ++ "\x27"
  | Value.list xs => "[" ++ pyReprList xs ++ "]"
  | Value.dict kvs => "\x7b" ++ pyReprKvs kvs ++ "\x7d"

/-- Comma-separated reprs of list items. -/
def pyReprList : List Value → String
  | [] => ""
  | [x] => pyRepr x
  | x :: xs => pyRepr x ++ ", " ++ pyReprList xs

/-- Comma-separated `key: value` reprs of dict items. -/
def pyReprKvs : List (String × Value) → String
  | [] => ""
  | [(k, v)] => "\x27" ++ k ++ "\x27: " ++ pyRepr v
  | (k, v) :: rest => "\x27" ++ k ++ "\x27: " ++ pyRepr v ++ ", " ++ pyReprKvs rest
end

/-- Python `str(v)` (also the conversion used by f-strings): identity on
strings, `repr` on everything else. -/
def pyStr : Value → String
  | Value.str s => s
  | v => pyRepr v

mutual
/-- Static method `DuuxClimateAutoDiscovery._deep_find(obj, key)`: the
list of all values yielded for `key` inside a nested dict/list
structure. A dict yields its own entry for `key` first, then recurses
into its values in insertion order; a list recurses into its items in
order; scalars yield nothing. -/
def deepFind (key : String) : Value → List Value
  | Value.dict kvs =>
      (match alistGet kvs key with
       | some v => [v]
       | Option.none => []) ++ deepFindKvs key kvs
  | Value.list xs => deepFindList key xs
  | _ => []

/-- Sequential `yield from` of `_deep_find` over list items. -/
def deepFindList (key : String) : List Value → List Value
  | [] => []
  | x :: xs => deepFind key x ++ deepFindList key xs

/-- Sequential `yield from` of `_deep_find` over `obj.values()`. -/
def deepFindKvs (key : String) : List (String × Value) → List Value
  | [] => []
  | (_, v) :: rest => deepFind key v ++ deepFindKvs key rest
end

/-- Python `key in obj` for a dict. -/
def pyContains (kvs : List (String × Value)) (k : String) : Bool :=
  (alistGet kvs k).isSome

/-- Python `obj[key]` on a dict: the fallible subscript primitive. It
raises `KeyError` when the key is absent. -/
def pySubscript (kvs : List (String × Value)) (k : String) : Except String Value :=
  match alistGet kvs k with
  | some v => Except.ok v
  | Option.none => Except.error "KeyError"

mutual
/-- Exception-explicit rendering of `_deep_find`: every dict subscript
goes through the fallible `pySubscript` primitive exactly as the source
executes `obj[key]` under the guard `key in obj`. All other operations
used by the generator are total in Python. -/
def deepFindE (key : String) : Value → Except String (List Value)
  | Value.dict kvs =>
      (if pyContains kvs key then
        match pySubscript kvs key with
        | Except.error e => Except.error e
        | Except.ok v => Except.ok [v]
      else Except.ok []).bind (fun hit =>
        (deepFindEKvs key kvs).map (fun rest => hit ++ rest))
  | Value.list xs => deepFindEList key xs
  | _ => Except.ok []

/-- Exception-explicit `yield from` over list items. -/
def deepFindEList (key : String) : List Value → Except String (List Value)
  | [] => Except.ok []
  | x :: xs =>
      (deepFindE key x).bind (fun h =>
        (deepFindEList key xs).map (fun t => h ++ t))

/-- Exception-explicit `yield from` over `obj.values()`. -/
def deepFindEKvs (key : String) : List (String × Value) → Except String (List Value)
  | [] => Except.ok []
  | (_, v) :: rest =>
      (deepFindE key v).bind (fun h =>
        (deepFindEKvs key rest).map (fun t => h ++ t))
end

mutual
/-- The guarded subscript in `_deep_find` never raises: the
exception-explicit rendering agrees with the total one. -/
theorem deepFindE_ok (key : String) : ∀ v, deepFindE key v = Except.ok (deepFind key v)
  | Value.none => rfl
  | Value.bool _ => rfl
  | Value.int _ => rfl
  | Value.str _ => rfl
  | Value.list xs => by
      rw [deepFindE, deepFind, deepFindEList_ok key xs]
  | Value.dict kvs => by
      rw [deepFindE, deepFind, deepFindEKvs_ok key kvs]
      unfold pyContains pySubscript
      cases h : alistGet kvs key <;> simp [h, Except.bind, Except.map]

/-- List part of `deepFindE_ok`. -/
theorem deepFindEList_ok (key : String) :
    ∀ xs, deepFindEList key xs = Except.ok (deepFindList key xs)
  | [] => rfl
  | x :: xs => by
      rw [deepFindEList, deepFindList, deepFindE_ok key x, deepFindEList_ok key xs]
      simp [Except.bind, Except.map]

/-- Dict-values part of `deepFindE_ok`. -/
theorem deepFindEKvs_ok (key : String) :
    ∀ kvs, deepFindEKvs key kvs = Except.ok (deepFindKvs key kvs)
  | [] => rfl
  | (_, v) :: rest => by
      rw [deepFindEKvs, deepFindKvs, deepFindE_ok key v, deepFindEKvs_ok key rest]
      simp [Except.bind, Except.map]
end

/-- Lines 182-188 of `presets_discovery`: resolve the raw
`availableModes` value. `(self._coordinator.data or \x7b\x7d).get("availableModes")`
with, when that is `None` (key absent or stored null),
`next(_deep_find(self._device, "availableModes"), None)`. The snapshot
`data` is the coordinator dict, possibly still `None` during init. -/
def rawModes (data : Option (List (String × Value))) (device : Value) : Value :=
  let modes := dictGet (data.getD []) "availableModes"
  if modes.isNone then (deepFind "availableModes" device).headD Value.none
  else modes

/-- Lines 190-198 of `presets_discovery`: when the resolved value is a
list, replace it by
`next((c for c in modes if isinstance(c, dict) and c.get("settings")), None)`. -/
def selectModes (modes : Value) : Value :=
  match modes with
  | Value.list xs =>
      (xs.find? (fun c => c.isDict && (c.get "settings").truthy)).getD Value.none
  | m => m

/-- Resolved modes value that `presets_discovery` type-checks with
`isinstance(modes, dict)`. -/
def resolveModes (data : Option (List (String × Value))) (device : Value) : Value :=
  selectModes (rawModes data device)

/-- Line 209-211: `modes.get("command_key") or modes.get("commandKey")
or modes.get("key")`. -/
def commandPrefixOf (kvs : List (String × Value)) : Value :=
  pyOr (dictGet kvs "command_key") (pyOr (dictGet kvs "commandKey") (dictGet kvs "key"))

/-- Lines 218-222: `setting.get("setting_name") or
setting.get("settingName") or setting.get("name")`. -/
def settingName (kvs : List (String × Value)) : Value :=
  pyOr (dictGet kvs "setting_name") (pyOr (dictGet kvs "settingName") (dictGet kvs "name"))

/-- Lines 224-228: `setting.get("setting_value") or
setting.get("settingValue") or setting.get("value")`. -/
def settingValue (kvs : List (String × Value)) : Value :=
  pyOr (dictGet kvs "setting_value") (pyOr (dictGet kvs "settingValue") (dictGet kvs "value"))

/-- Lines 232-236: explicit `command` field if present, else the
f-string `"\x7bcommand_prefix\x7d \x7bvalue\x7d"` when the prefix is truthy and the
value is not `None`, else the raw value. -/
def resolvedCommand (commandPrefix : Value) (kvs : List (String × Value)) : Value :=
  let command := dictGet kvs "command"
  if command.isNone then
    if commandPrefix.truthy && !(settingValue kvs).isNone then
      Value.str (pyStr commandPrefix ++ " " ++ pyStr (settingValue kvs))
    else settingValue kvs
  else command

/-- Preset descriptor appended at lines 241-247: `"name"` and
`"command"` are always `str(...)` results, `"value"` is `None` or a
`str(...)` result. -/
structure Preset where
  name : String
  command : String
  value : Option String
deriving Repr, DecidableEq

/-- Body of the `for setting in settings` loop (lines 214-247): non-dict
entries contribute nothing (`continue`); otherwise a preset is appended
exactly when the normalized name is truthy and the resolved command is
not `None`. `norm` is the `_normalize_mode_name` hook. -/
def presetOfSetting (norm : Value → Value → Value) (commandPrefix : Value)
    (s : Value) : List Preset :=
  match s with
  | Value.dict kvs =>
      let name := norm (settingName kvs) (settingValue kvs)
      let command := resolvedCommand commandPrefix kvs
      if name.truthy && !command.isNone then
        [{ name := pyStr name,
           command := pyStr command,
           value := if (settingValue kvs).isNone then Option.none
                    else some (pyStr (settingValue kvs)) }]
      else []
  | _ => []

/-- Lines 213-247, the whole `for setting in settings` loop. -/
def buildPresets (norm : Value → Value → Value) (commandPrefix : Value) :
    List Value → List Preset
  | [] => []
  | s :: rest => presetOfSetting norm commandPrefix s ++ buildPresets norm commandPrefix rest

/-- Method `DuuxClimateAutoDiscovery.presets_discovery` (lines
179-251): resolve the modes value, require it to be a dict with a list
under `"settings"` (else return `[]`), then run the settings loop. -/
def presets_discovery (norm : Value → Value → Value)
    (data : Option (List (String × Value))) (device : Value) : List Preset :=
  match resolveModes data device with
  | Value.dict kvs =>
      match dictGet kvs "settings" with
      | Value.list settings => buildPresets norm (commandPrefixOf kvs) settings
      | _ => []
  | _ => []

/-- Exception-explicit rendering of `presets_discovery`: identical to
the total definition except that the `_deep_find` traversal goes
through the fallible subscript primitive. Every other operation the
method performs (`dict.get` with and without default, `next` with a
default, `isinstance`, truthiness, f-string and `str` conversion) is
total in Python. -/
def presets_discoveryE (norm : Value → Value → Value)
    (data : Option (List (String × Value))) (device : Value) :
    Except String (List Preset) :=
  let modes0 := dictGet (data.getD []) "availableModes"
  (if modes0.isNone then
    (deepFindE "availableModes" device).map (fun found => found.headD Value.none)
  else Except.ok modes0).map (fun modes1 =>
    match selectModes modes1 with
    | Value.dict kvs =>
        match dictGet kvs "settings" with
        | Value.list settings => buildPresets norm (commandPrefixOf kvs) settings
        | _ => []
    | _ => [])

/-- Base `DuuxClimateAutoDiscovery._normalize_mode_name`: returns the
name unchanged. -/
def baseNormalize (name : Value) (_value : Value) : Value := name

/-- Home Assistant climate constant `PRESET_ECO`. -/
def HA.PRESET_ECO : String := "eco"

/-- Home Assistant climate constant `PRESET_COMFORT`. -/
def HA.PRESET_COMFORT : String := "comfort"

/-- Home Assistant climate constant `PRESET_BOOST`. -/
def HA.PRESET_BOOST : String := "boost"

/-- Method `DuuxThreesixtyBase._normalize_mode_name` (lines 309-318):
remaps setting values "2"/"1"/"0" to the eco/comfort/boost labels,
leaving every other name unchanged. -/
def threesixtyNormalize (name value : Value) : Value :=
  if !value.isNone then
    if pyEqStr value "2" then Value.str HA.PRESET_ECO
    else if pyEqStr value "1" then Value.str HA.PRESET_COMFORT
    else if pyEqStr value "0" then Value.str HA.PRESET_BOOST
    else name
  else name

/-- Hvac mode values the entity can report. -/
inductive HVACMode where
  | off : HVACMode
  | heat : HVACMode
deriving Repr, DecidableEq

/-- Property `DuuxClimate.hvac_mode` (lines 103-107):
`power = self.coordinator.data.get("power", 0)` then
`HVACMode.HEAT if power == 1 else HVACMode.OFF`. -/
def hvac_mode (data : List (String × Value)) : HVACMode :=
  let power := (alistGet data "power").getD (Value.int 0)
  if pyEqInt power 1 then HVACMode.heat else HVACMode.off

/-- Entity classes instantiable by `async_setup_entry`. -/
inductive EntityKind where
  | threesixty2023 : EntityKind
  | edgeV2 : EntityKind
  | threesixtyTwo2022 : EntityKind
  | autoDiscovery : EntityKind
deriving Repr, DecidableEq

/-- Dispatch in `async_setup_entry` (lines 36-49):
`device.get("sensorTypeId")` compared with 49, 50, 31; anything else
falls back to the generic auto-discovery entity with a warning logged
(the returned Bool). -/
def selectEntity (device : List (String × Value)) : EntityKind × Bool :=
  let sensor_type_id := dictGet device "sensorTypeId"
  if pyEqInt sensor_type_id 49 then (EntityKind.threesixty2023, false)
  else if pyEqInt sensor_type_id 50 then (EntityKind.edgeV2, false)
  else if pyEqInt sensor_type_id 31 then (EntityKind.threesixtyTwo2022, false)
  else (EntityKind.autoDiscovery, true)

/-- Outbound effects of the entity methods, in issue order. -/
inductive ApiAction where
  | sendCommand (mac : String) (cmd : String) : ApiAction
  | setMode (mac : String) (mode : Value) : ApiAction
  | requestRefresh : ApiAction

/-- Method `DuuxClimateAutoDiscovery.async_set_preset_mode` (lines
272-282): the loop binds `mode_command` from the first preset whose
name equals the request and breaks; when no preset matches, the
f-string `"tune set \x7bmode_command\x7d"` reads the never-assigned local and
raises `UnboundLocalError` before any API call, so no command is sent.
On a match it sends the raw command and then requests a refresh. -/
def autoSetPresetMode (mac : String) (presets : List Preset)
    (preset_mode : String) : Except String (List ApiAction) :=
  match presets.find? (fun p => p.name == preset_mode) with
  | some p =>
      Except.ok [ApiAction.sendCommand mac ("tune set " ++ p.command),
                 ApiAction.requestRefresh]
  | Option.none => Except.error "UnboundLocalError"

/-- Class attribute `DuuxEdgeClimate.PRESET_LOW = PRESET_ECO`. -/
def DuuxEdgeClimate.PRESET_LOW : String := HA.PRESET_ECO

/-- Class attribute `DuuxEdgeClimate.PRESET_HIGH = PRESET_COMFORT`. -/
def DuuxEdgeClimate.PRESET_HIGH : String := HA.PRESET_COMFORT

/-- Class attribute `DuuxEdgeClimate.PRESET_BOOST = PRESET_BOOST`. -/
def DuuxEdgeClimate.PRESET_BOOST : String := HA.PRESET_BOOST

/-- Property `DuuxEdgeClimate.preset_mode` (lines 344-353):
`mode_map = \x7b1: PRESET_LOW, 2: PRESET_HIGH, 3: PRESET_BOOST\x7d` and
`mode_map.get(self._coordinator.data.get("heatin"), PRESET_LOW)`.
Python `dict.get` hashes its key, so a list- or dict-valued `heatin`
raises `TypeError`; the int keys match ints and booleans numerically
(`True == 1`); every other hashable value misses and yields the
`PRESET_LOW` default. -/
def edgePresetMode (data : List (String × Value)) : Except String String :=
  let mode := (alistGet data "heatin").getD Value.none
  if !mode.hashable then Except.error "TypeError: unhashable type"
  else Except.ok (
    if pyEqInt mode 1 then DuuxEdgeClimate.PRESET_LOW
    else if pyEqInt mode 2 then DuuxEdgeClimate.PRESET_HIGH
    else if pyEqInt mode 3 then DuuxEdgeClimate.PRESET_BOOST
    else DuuxEdgeClimate.PRESET_LOW)

/-- Method `DuuxEdgeClimate.async_set_preset_mode` (lines 355-368):
`mode_map = \x7bPRESET_LOW: "1", PRESET_HIGH: "2", PRESET_BOOST: "3"\x7d`,
`mode = mode_map.get(preset_mode, 1)`, then `set_mode` and a refresh
request. The requested preset name is a string per the platform
contract. -/
def edgeSetPresetMode (mac : String) (preset_mode : String) : List ApiAction :=
  let mode : Value :=
    if preset_mode == DuuxEdgeClimate.PRESET_LOW then Value.str "1"
    else if preset_mode == DuuxEdgeClimate.PRESET_HIGH then Value.str "2"
    else if preset_mode == DuuxEdgeClimate.PRESET_BOOST then Value.str "3"
    else Value.int 1
  [ApiAction.setMode mac mode, ApiAction.requestRefresh]

/-- Settings list that the discovery loop actually iterates: the
`"settings"` entry of the resolved modes dict when it is a list, and
`[]` in the degenerate branches. -/
def settingsOf (data : Option (List (String × Value))) (device : Value) : List Value :=
  match resolveModes data device with
  | Value.dict kvs =>
      match dictGet kvs "settings" with
      | Value.list settings => settings
      | _ => []
  | _ => []

theorem toDigitsCore_length_le (b : Nat) :
    ∀ (fuel n : Nat) (ds : List Char), ds.length ≤ (Nat.toDigitsCore b fuel n ds).length := by
  intro fuel
  induction fuel with
  | zero => intro n ds; simp [Nat.toDigitsCore]
  | succ f ih =>
      intro n ds
      simp only [Nat.toDigitsCore]
      by_cases h : n / b = 0
      · simp [h]
      · simp only [h, if_neg]
        exact le_trans (by simp) (ih (n / b) (Nat.digitChar (n % b) :: ds))

theorem natRepr_ne_empty (m : Nat) : Nat.repr m ≠ "" := by
  have h : 1 ≤ (Nat.toDigits 10 m).length := by
    unfold Nat.toDigits
    simp only [Nat.toDigitsCore]
    by_cases h : m / 10 = 0
    · simp [h]
    · simp only [h, if_neg]
      exact le_trans (by simp) (toDigitsCore_length_le 10 m (m / 10) [Nat.digitChar (m % 10)])
  unfold Nat.repr
  intro hc
  have hnil : (Nat.toDigits 10 m) = [] := congrArg String.data hc
  rw [hnil] at h
  simp at h

theorem intRepr_ne_empty (n : Int) : Int.repr n ≠ "" := by
  cases n with
  | ofNat m => exact natRepr_ne_empty m
  | negSucc m =>
      show "-" ++ Nat.repr (m + 1) ≠ ""
      intro hc
      have hlen := congrArg String.length hc
      rw [String.length_append] at hlen
      have h1 : ("-" : String).length = 1 := rfl
      have h0 : ("" : String).length = 0 := rfl
      omega

theorem append_ne_empty_left (a s b : String) (ha : a ≠ "") : a ++ s ++ b ≠ "" := by
  intro hc
  have hlen := congrArg String.length hc
  rw [String.length_append, String.length_append] at hlen
  have h0 : ("" : String).length = 0 := rfl
  have ha2 : a.length ≠ 0 := by
    intro hz
    apply ha
    have : a.data.length = 0 := hz
    have hd : a.data = [] := List.length_eq_zero.mp this
    cases a
    simp only at hd
    rw [hd]
  omega

/-- Python guarantee behind the preset name invariant: the `str` image
of every truthy value is a non-empty string. -/
theorem pyStr_ne_empty_of_truthy : ∀ v : Value, v.truthy = true → pyStr v ≠ "" := by
  intro v hv
  cases v with
  | none => simp [Value.truthy] at hv
  | bool b =>
      cases b with
      | false => simp [Value.truthy] at hv
      | true => show "True" ≠ ""; decide
  | int n => exact intRepr_ne_empty n
  | str s =>
      have : s ≠ "" := by simpa [Value.truthy] using hv
      simpa [pyStr] using this
  | list xs =>
      show "[" ++ pyReprList xs ++ "]" ≠ ""
      exact append_ne_empty_left "[" (pyReprList xs) "]" (by decide)
  | dict kvs =>
      show "\x7b" ++ pyReprKvs kvs ++ "\x7d" ≠ ""
      exact append_ne_empty_left "\x7b" (pyReprKvs kvs) "\x7d" (by decide)

theorem presetOfSetting_name_ne_empty (norm : Value → Value → Value)
    (commandPrefix : Value) (s : Value) (p : Preset)
    (hp : p ∈ presetOfSetting norm commandPrefix s) : p.name ≠ "" := by
  cases s with
  | dict kvs =>
      rw [presetOfSetting] at hp
      by_cases hg : (norm (settingName kvs) (settingValue kvs)).truthy
           && !(resolvedCommand commandPrefix kvs).isNone
      · rw [if_pos hg] at hp
        have hname := (Bool.and_eq_true _ _ |>.mp hg).1
        rcases List.mem_singleton.mp hp with rfl
        exact pyStr_ne_empty_of_truthy _ hname
      · rw [if_neg hg] at hp
        simp at hp
  | none => simp [presetOfSetting] at hp
  | bool b => simp [presetOfSetting] at hp
  | int n => simp [presetOfSetting] at hp
  | str s2 => simp [presetOfSetting] at hp
  | list xs => simp [presetOfSetting] at hp

theorem presetOfSetting_length_le (norm : Value → Value → Value)
    (commandPrefix : Value) (s : Value) :
    (presetOfSetting norm commandPrefix s).length ≤ 1 := by
  cases s <;> simp only [presetOfSetting] <;> try simp
  split <;> simp

theorem buildPresets_name_ne_empty (norm : Value → Value → Value)
    (commandPrefix : Value) :
    ∀ (l : List Value) (p : Preset), p ∈ buildPresets norm commandPrefix l → p.name ≠ "" := by
  intro l
  induction l with
  | nil => intro p hp; simp [buildPresets] at hp
  | cons s rest ih =>
      intro p hp
      rw [buildPresets] at hp
      rcases List.mem_append.mp hp with hl | hr
      · exact presetOfSetting_name_ne_empty norm commandPrefix s p hl
      · exact ih p hr

theorem buildPresets_length_le (norm : Value → Value → Value)
    (commandPrefix : Value) :
    ∀ l : List Value, (buildPresets norm commandPrefix l).length ≤ l.length := by
  intro l
  induction l with
  | nil => simp [buildPresets]
  | cons s rest ih =>
      rw [buildPresets, List.length_append, List.length_cons]
      have hhead := presetOfSetting_length_le norm commandPrefix s
      omega

/-- Command prefix that the discovery loop runs with (proof-side
abbreviation for relating `presets_discovery` to its loop). -/
def cpOf (data : Option (List (String × Value))) (device : Value) : Value :=
  match resolveModes data device with
  | Value.dict kvs => commandPrefixOf kvs
  | _ => Value.none

theorem presets_discovery_eq_buildPresets (norm : Value → Value → Value)
    (data : Option (List (String × Value))) (device : Value) :
    presets_discovery norm data device
      = buildPresets norm (cpOf data device) (settingsOf data device) := by
  unfold presets_discovery settingsOf cpOf
  cases hm : resolveModes data device with
  | dict kvs => cases hd : dictGet kvs "settings" <;> simp [hd, buildPresets]
  | none => simp [buildPresets]
  | bool b => simp [buildPresets]
  | int n => simp [buildPresets]
  | str s => simp [buildPresets]
  | list xs => simp [buildPresets]

/-- C1: every preset produced by discovery has a non-empty name (the
command field is a string by construction, mirroring the
`command is not None` guard before `str(command)` is stored); settings
whose name or command does not resolve, and non-dict settings, are
skipped, so the output is never longer than the settings list. -/
theorem C1_presets_invariant (norm : Value → Value → Value)
    (data : Option (List (String × Value))) (device : Value)
    (commandPrefix s : Value) (rest : List Value) :
    (∀ p ∈ presets_discovery norm data device, p.name ≠ "")
    ∧ (presets_discovery norm data device).length ≤ (settingsOf data device).length
    ∧ (s.isDict = false →
        buildPresets norm commandPrefix (s :: rest) = buildPresets norm commandPrefix rest)
    ∧ (∀ kvs, (norm (settingName kvs) (settingValue kvs)).truthy = false →
        buildPresets norm commandPrefix (Value.dict kvs :: rest)
          = buildPresets norm commandPrefix rest)
    ∧ (∀ kvs, (resolvedCommand commandPrefix kvs).isNone = true →
        buildPresets norm commandPrefix (Value.dict kvs :: rest)
          = buildPresets norm commandPrefix rest) := by
  refine ⟨?_, ?_, ?_, ?_, ?_⟩
  · intro p hp
    rw [presets_discovery_eq_buildPresets] at hp
    exact buildPresets_name_ne_empty _ _ _ p hp
  · rw [presets_discovery_eq_buildPresets]
    exact buildPresets_length_le _ _ _
  · intro hs
    rw [buildPresets]
    cases s with
    | dict kvs => simp [Value.isDict] at hs
    | none => simp [presetOfSetting]
    | bool b => simp [presetOfSetting]
    | int n => simp [presetOfSetting]
    | str s2 => simp [presetOfSetting]
    | list xs => simp [presetOfSetting]
  · intro kvs h
    rw [buildPresets]
    simp [presetOfSetting, h]
  · intro kvs h
    rw [buildPresets]
    simp [presetOfSetting, h]

theorem C1_presets_invariant_witness :
    (presets_discovery baseNormalize
        (some [("availableModes", Value.dict
            [("key", Value.str "tune"),
             ("settings", Value.list [Value.dict [("name", Value.str "Eco"),
                                                  ("value", Value.str "2")]])])])
        (Value.dict [])).length
      ≤ (settingsOf
          (some [("availableModes", Value.dict
              [("key", Value.str "tune"),
               ("settings", Value.list [Value.dict [("name", Value.str "Eco"),
                                                    ("value", Value.str "2")]])])])
          (Value.dict [])).length
    ∧ buildPresets baseNormalize Value.none [Value.int 3]
        = buildPresets baseNormalize Value.none [] := by
  have h := C1_presets_invariant baseNormalize
    (some [("availableModes", Value.dict
        [("key", Value.str "tune"),
         ("settings", Value.list [Value.dict [("name", Value.str "Eco"),
                                              ("value", Value.str "2")]])])])
    (Value.dict []) Value.none (Value.int 3) []
  exact ⟨h.2.1, h.2.2.1 rfl⟩

/-- C2 counterexample: a snapshot whose power field holds the truthy
(nonzero) value 2 reports OFF, not HEAT as the claim states. -/
theorem C2_counterexample :
    hvac_mode [("power", Value.int 2)] = HVACMode.off
    ∧ (Value.int 2).truthy = true := ⟨rfl, rfl⟩

/-- C2 amended: `hvac_mode` reports HEAT exactly when the power field
compares equal to 1 (the integer 1 or boolean True), and OFF otherwise,
including every other nonzero power value and a missing field. -/
theorem C2_power_eq_one (data : List (String × Value)) (n : Int) (b : Bool) :
    (alistGet data "power" = some (Value.int n) →
      (hvac_mode data = HVACMode.heat ↔ n = 1))
    ∧ (alistGet data "power" = some (Value.bool b) →
      (hvac_mode data = HVACMode.heat ↔ b = true))
    ∧ (alistGet data "power" = Option.none → hvac_mode data = HVACMode.off) := by
  refine ⟨?_, ?_, ?_⟩
  · intro h
    unfold hvac_mode
    rw [h]
    simp only [Option.getD_some, pyEqInt]
    by_cases hn : n = 1
    · simp [hn]
    · simp [hn]
  · intro h
    unfold hvac_mode
    rw [h]
    cases b <;> simp [pyEqInt]
  · intro h
    unfold hvac_mode
    rw [h]
    simp [pyEqInt]

theorem C2_power_eq_one_witness :
    hvac_mode [("power", Value.int 1)] = HVACMode.heat :=
  ((C2_power_eq_one [("power", Value.int 1)] 1 true).1 rfl).mpr rfl

/-- C3: preset discovery never raises: the exception-explicit rendering
(where the dict subscript of `_deep_find` is fallible) always returns
`ok` of the total result; a resolved modes value that is not a dict,
or a settings entry that is not a list, degrades to the empty preset
list. -/
theorem C3_discovery_never_raises (norm : Value → Value → Value)
    (data : Option (List (String × Value))) (device : Value)
    (kvs : List (String × Value)) :
    presets_discoveryE norm data device = Except.ok (presets_discovery norm data device)
    ∧ ((resolveModes data device).isDict = false →
        presets_discovery norm data device = [])
    ∧ (resolveModes data device = Value.dict kvs →
        (dictGet kvs "settings").isList = false →
        presets_discovery norm data device = []) := by
  refine ⟨?_, ?_, ?_⟩
  · by_cases h : (dictGet (data.getD []) "availableModes").isNone
    · simp [presets_discoveryE, presets_discovery, resolveModes, rawModes, h,
            deepFindE_ok, Except.map]
    · simp [presets_discoveryE, presets_discovery, resolveModes, rawModes, h,
            Except.map]
  · intro h
    cases hm : resolveModes data device with
    | dict kvs2 => rw [hm] at h; simp [Value.isDict] at h
    | none => unfold presets_discovery; rw [hm]
    | bool b => unfold presets_discovery; rw [hm]
    | int n => unfold presets_discovery; rw [hm]
    | str s => unfold presets_discovery; rw [hm]
    | list xs => unfold presets_discovery; rw [hm]
  · intro hm hs
    unfold presets_discovery
    rw [hm]
    cases hd : dictGet kvs "settings" with
    | list settings => rw [hd] at hs; simp [Value.isList] at hs
    | none => simp [hd]
    | bool b => simp [hd]
    | int n => simp [hd]
    | str s => simp [hd]
    | dict kvs2 => simp [hd]

theorem C3_discovery_never_raises_witness :
    presets_discoveryE baseNormalize (some [("availableModes", Value.int 7)])
      (Value.dict []) = Except.ok [] := by
  have h := C3_discovery_never_raises baseNormalize
    (some [("availableModes", Value.int 7)]) (Value.dict []) []
  have h2 := h.2.1 rfl
  rw [h.1, h2]

/-- C5: the Threesixty scenario. Settings named Eco and Boost with
values "2" and "0" and command key "tune" yield exactly the eco and
boost presets with synthesized commands "tune 2" and "tune 0". -/
theorem C5_threesixty_scenario :
    presets_discovery threesixtyNormalize
      (some [("availableModes", Value.dict
          [("command_key", Value.str "tune"),
           ("settings", Value.list
              [Value.dict [("name", Value.str "Eco"), ("value", Value.str "2")],
               Value.dict [("name", Value.str "Boost"), ("value", Value.str "0")]])])])
      (Value.dict [])
    = [{ name := HA.PRESET_ECO, command := "tune 2", value := some "2" },
       { name := HA.PRESET_BOOST, command := "tune 0", value := some "0" }] := rfl

/-- C4: entity dispatch on the hardware type code. Codes 49, 50 and 31
select the Threesixty 2023, Edge v2 and Threesixty Two (2022) entities;
every other value of `sensorTypeId`, including a missing key, selects
the generic auto-discovery entity with a warning logged (the Bool
component); the dispatch is a total function, so no code raises. -/
theorem C4_entity_dispatch (device : List (String × Value)) :
    (pyEqInt (dictGet device "sensorTypeId") 49 = true →
      selectEntity device = (EntityKind.threesixty2023, false))
    ∧ (pyEqInt (dictGet device "sensorTypeId") 50 = true →
      selectEntity device = (EntityKind.edgeV2, false))
    ∧ (pyEqInt (dictGet device "sensorTypeId") 31 = true →
      selectEntity device = (EntityKind.threesixtyTwo2022, false))
    ∧ (pyEqInt (dictGet device "sensorTypeId") 49 = false →
       pyEqInt (dictGet device "sensorTypeId") 50 = false →
       pyEqInt (dictGet device "sensorTypeId") 31 = false →
      selectEntity device = (EntityKind.autoDiscovery, true))
    ∧ (alistGet device "sensorTypeId" = Option.none →
      selectEntity device = (EntityKind.autoDiscovery, true)) := by
  refine ⟨?_, ?_, ?_, ?_, ?_⟩
  · intro h
    simp [selectEntity, h]
  · intro h
    have h49 : pyEqInt (dictGet device "sensorTypeId") 49 = false := by
      cases hv : dictGet device "sensorTypeId" <;> rw [hv] at h <;>
        simp [pyEqInt] at h ⊢ <;> omega
    simp [selectEntity, h, h49]
  · intro h
    have h49 : pyEqInt (dictGet device "sensorTypeId") 49 = false := by
      cases hv : dictGet device "sensorTypeId" <;> rw [hv] at h <;>
        simp [pyEqInt] at h ⊢ <;> omega
    have h50 : pyEqInt (dictGet device "sensorTypeId") 50 = false := by
      cases hv : dictGet device "sensorTypeId" <;> rw [hv] at h <;>
        simp [pyEqInt] at h ⊢ <;> omega
    simp [selectEntity, h, h49, h50]
  · intro h49 h50 h31
    simp [selectEntity, h49, h50, h31]
  · intro h
    have hnone : dictGet device "sensorTypeId" = Value.none := by
      simp [dictGet, h]
    simp [selectEntity, hnone, pyEqInt]

theorem C4_entity_dispatch_witness :
    selectEntity [("sensorTypeId", Value.int 49)] = (EntityKind.threesixty2023, false)
    ∧ selectEntity [("sensorTypeId", Value.int 999)] = (EntityKind.autoDiscovery, true)
    ∧ selectEntity [] = (EntityKind.autoDiscovery, true) :=
  ⟨(C4_entity_dispatch [("sensorTypeId", Value.int 49)]).1 rfl,
   (C4_entity_dispatch [("sensorTypeId", Value.int 999)]).2.2.2.1 rfl rfl rfl,
   (C4_entity_dispatch []).2.2.2.2 rfl⟩

/-- C6: when the resolved modes value is a list, discovery keeps the
first element that is a dict with a truthy (non-empty) `"settings"`
entry and discards everything else; if no element qualifies the
selection is `None`. In particular the spec scenario
`[{"settings": []}, {"other": 1}]` yields no presets, because the first
candidate has an empty settings list and the second has none. -/
theorem C6_first_candidate_selection (pre post xs : List Value)
    (kvs : List (String × Value)) :
    ((∀ d ∈ pre, ¬(d.isDict = true ∧ (d.get "settings").truthy = true)) →
      ((Value.dict kvs).get "settings").truthy = true →
      selectModes (Value.list (pre ++ Value.dict kvs :: post)) = Value.dict kvs)
    ∧ ((∀ d ∈ xs, ¬(d.isDict = true ∧ (d.get "settings").truthy = true)) →
      selectModes (Value.list xs) = Value.none)
    ∧ presets_discovery baseNormalize
        (some [("availableModes", Value.list
            [Value.dict [("settings", Value.list [])],
             Value.dict [("other", Value.int 1)]])])
        (Value.dict []) = [] := by
  refine ⟨?_, ?_, rfl⟩
  · intro hpre hc
    rw [selectModes]
    have hfind : (pre ++ Value.dict kvs :: post).find?
        (fun c => c.isDict && (c.get "settings").truthy) = some (Value.dict kvs) := by
      induction pre with
      | nil =>
          apply List.find?_cons_of_pos
          simp [Value.isDict, hc]
      | cons d rest ih =>
          have hd := hpre d (List.mem_cons_self d rest)
          have hdf : (d.isDict && (d.get "settings").truthy) = false := by
            cases hb1 : d.isDict with
            | false => simp [hb1]
            | true =>
                cases hb2 : (d.get "settings").truthy with
                | false => simp [hb1, hb2]
                | true => exact absurd ⟨hb1, hb2⟩ hd
          rw [List.cons_append, List.find?_cons_of_neg _ (by simp [hdf])]
          exact ih (fun e he => hpre e (List.mem_cons_of_mem d he))
    rw [hfind]
    rfl
  · intro hxs
    rw [selectModes]
    have hfind : xs.find? (fun c => c.isDict && (c.get "settings").truthy)
        = Option.none := by
      rw [List.find?_eq_none]
      intro d hd
      have hnd := hxs d hd
      intro hcontra
      exact hnd (Bool.and_eq_true _ _ |>.mp hcontra)
    rw [hfind]
    rfl

theorem C6_first_candidate_selection_witness :
    selectModes (Value.list
        [Value.int 0,
         Value.dict [("settings", Value.list [Value.int 1])],
         Value.str "x"])
      = Value.dict [("settings", Value.list [Value.int 1])]
    ∧ selectModes (Value.list [Value.dict [("settings", Value.list [])]])
      = Value.none := by
  constructor
  · exact (C6_first_candidate_selection [Value.int 0] [Value.str "x"] []
      [("settings", Value.list [Value.int 1])]).1 (by simp [Value.isDict]) rfl
  · exact (C6_first_candidate_selection [] [] [Value.dict [("settings", Value.list [])]]
      [] ).2.1 (by simp [Value.get, dictGet, alistGet, Value.truthy])

theorem deepFindList_eq_flatMap (key : String) :
    ∀ xs : List Value, deepFindList key xs = xs.flatMap (deepFind key) := by
  intro xs
  induction xs with
  | nil => rfl
  | cons x rest ih => rw [deepFindList, ih, List.flatMap_cons]

theorem deepFindKvs_eq_flatMap (key : String) :
    ∀ kvs : List (String × Value),
      deepFindKvs key kvs = (kvs.map Prod.snd).flatMap (deepFind key) := by
  intro kvs
  induction kvs with
  | nil => rfl
  | cons p rest ih =>
      cases p with
      | mk k v => rw [deepFindKvs, ih, List.map_cons, List.flatMap_cons]

/-- C7: when the top-level `availableModes` of the snapshot is absent
or null, discovery resolves the modes value as the first result of the
depth-first `_deep_find` traversal of the device descriptor (or `None`
when the key occurs nowhere); the traversal visits the own entry of a
dict before recursing into its values in insertion order, visits list
items in order, and yields nothing on scalars. -/
theorem C7_deep_find_resolution (data : Option (List (String × Value)))
    (device : Value) (key : String) (kvs : List (String × Value))
    (xs : List Value) (b : Bool) (n : Int) (s : String) :
    (dictGet (data.getD []) "availableModes" = Value.none →
      rawModes data device = (deepFind "availableModes" device).headD Value.none)
    ∧ (dictGet (data.getD []) "availableModes" = Value.none →
       deepFind "availableModes" device = [] →
      rawModes data device = Value.none)
    ∧ deepFind key (Value.dict kvs)
        = (alistGet kvs key).toList ++ (kvs.map Prod.snd).flatMap (deepFind key)
    ∧ deepFind key (Value.list xs) = xs.flatMap (deepFind key)
    ∧ deepFind key Value.none = []
    ∧ deepFind key (Value.bool b) = []
    ∧ deepFind key (Value.int n) = []
    ∧ deepFind key (Value.str s) = [] := by
  refine ⟨?_, ?_, ?_, ?_, rfl, rfl, rfl, rfl⟩
  · intro h
    rw [rawModes]
    simp [h, Value.isNone]
  · intro h hempty
    rw [rawModes]
    simp [h, Value.isNone, hempty]
  · rw [deepFind, deepFindKvs_eq_flatMap]
    cases alistGet kvs key <;> rfl
  · rw [deepFind, deepFindList_eq_flatMap]

theorem C7_deep_find_resolution_witness :
    rawModes (some [("other", Value.int 1)])
      (Value.dict
        [("a", Value.dict [("availableModes", Value.str "inner")]),
         ("b", Value.dict [("availableModes", Value.str "second")])])
      = Value.str "inner"
    ∧ rawModes (some []) (Value.int 5) = Value.none := by
  constructor
  · have h := (C7_deep_find_resolution (some [("other", Value.int 1)])
      (Value.dict
        [("a", Value.dict [("availableModes", Value.str "inner")]),
         ("b", Value.dict [("availableModes", Value.str "second")])])
      "availableModes" [] [] false 0 "").1 rfl
    rw [h]
    rfl
  · exact (C7_deep_find_resolution (some []) (Value.int 5)
      "availableModes" [] [] false 0 "").2.1 rfl rfl

/-- C8: setting a preset on the auto-discovery entity with a name that
matches no cached preset raises an unhandled `UnboundLocalError` and
sends nothing; a name matching some preset sends
`"tune set " ++ command` of the first match, followed by a refresh
request. -/
theorem C8_set_preset_lookup (mac : String) (presets ps1 ps2 : List Preset)
    (p : Preset) (name : String) :
    ((∀ q ∈ presets, q.name ≠ name) →
      autoSetPresetMode mac presets name = Except.error "UnboundLocalError")
    ∧ ((∀ q ∈ ps1, q.name ≠ name) → p.name = name →
      autoSetPresetMode mac (ps1 ++ p :: ps2) name
        = Except.ok [ApiAction.sendCommand mac ("tune set " ++ p.command),
                     ApiAction.requestRefresh]) := by
  constructor
  · intro h
    unfold autoSetPresetMode
    have hf : presets.find? (fun q => q.name == name) = Option.none :=
      List.find?_eq_none.mpr (fun q hq => by simp [h q hq])
    rw [hf]
  · intro h1 hp
    unfold autoSetPresetMode
    have hf : (ps1 ++ p :: ps2).find? (fun q => q.name == name) = some p := by
      induction ps1 with
      | nil =>
          apply List.find?_cons_of_pos
          simp [hp]
      | cons q rest ih =>
          rw [List.cons_append, List.find?_cons_of_neg]
          · exact ih (fun r hr => h1 r (List.mem_cons_of_mem q hr))
          · simp [h1 q (List.mem_cons_self q rest)]
    rw [hf]

theorem C8_set_preset_lookup_witness :
    autoSetPresetMode "aa:bb" [⟨"eco", "tune 2", some "2"⟩] "boost"
      = Except.error "UnboundLocalError"
    ∧ autoSetPresetMode "aa:bb"
        [⟨"eco", "tune 2", some "2"⟩, ⟨"boost", "tune 0", some "0"⟩] "boost"
      = Except.ok [ApiAction.sendCommand "aa:bb" "tune set tune 0",
                   ApiAction.requestRefresh] := by
  have h := C8_set_preset_lookup "aa:bb" [⟨"eco", "tune 2", some "2"⟩]
    [⟨"eco", "tune 2", some "2"⟩] [] ⟨"boost", "tune 0", some "0"⟩ "boost"
  exact ⟨h.1 (by decide), h.2 (by decide) rfl⟩

/-- C9: Edge preset round trip. Setting the preset named by
`DuuxEdgeClimate.PRESET_HIGH` issues a set-mode call carrying code 2
(the string "2" from the mode map) followed by a refresh request, and a
snapshot whose `heatin` field holds code 2 reads back exactly
`PRESET_HIGH`. -/
theorem C9_edge_round_trip (mac : String) (data : List (String × Value)) :
    edgeSetPresetMode mac DuuxEdgeClimate.PRESET_HIGH
      = [ApiAction.setMode mac (Value.str "2"), ApiAction.requestRefresh]
    ∧ (alistGet data "heatin" = some (Value.int 2) →
      edgePresetMode data = Except.ok DuuxEdgeClimate.PRESET_HIGH) := by
  constructor
  · rfl
  · intro h
    unfold edgePresetMode
    rw [h]
    rfl

theorem C9_edge_round_trip_witness :
    edgePresetMode [("heatin", Value.int 2)] = Except.ok DuuxEdgeClimate.PRESET_HIGH :=
  (C9_edge_round_trip "aa:bb" [("heatin", Value.int 2)]).2 rfl

/-- C10 counterexample: a snapshot whose `heatin` value is a list (a
legal snapshot value) makes the Edge preset read raise `TypeError` from
the unhashable dict key, instead of reporting the low/eco label as the
claim states for every code outside 1, 2, 3. -/
theorem C10_counterexample :
    edgePresetMode [("heatin", Value.list [])]
      = Except.error "TypeError: unhashable type"
    ∧ edgePresetMode [("heatin", Value.list [])]
      ≠ Except.ok DuuxEdgeClimate.PRESET_LOW := by
  constructor
  · rfl
  · intro h
    rw [show edgePresetMode [("heatin", Value.list [])]
        = Except.error "TypeError: unhashable type" from rfl] at h
    exact Except.noConfusion h

/-- C10 amended: for every snapshot whose `heatin` value is hashable
(anything but a list or dict), the Edge preset read returns one of the
three labels, and returns the low/eco label whenever the value compares
equal to none of the codes 1, 2 and 3 — in particular when the key is
missing; a list- or dict-valued `heatin` instead raises `TypeError`. -/
theorem C10_edge_default_low (data : List (String × Value)) :
    (((alistGet data "heatin").getD Value.none).hashable = true →
     pyEqInt ((alistGet data "heatin").getD Value.none) 1 = false →
     pyEqInt ((alistGet data "heatin").getD Value.none) 2 = false →
     pyEqInt ((alistGet data "heatin").getD Value.none) 3 = false →
      edgePresetMode data = Except.ok DuuxEdgeClimate.PRESET_LOW)
    ∧ (alistGet data "heatin" = Option.none →
      edgePresetMode data = Except.ok DuuxEdgeClimate.PRESET_LOW)
    ∧ (((alistGet data "heatin").getD Value.none).hashable = true →
      edgePresetMode data = Except.ok DuuxEdgeClimate.PRESET_LOW
      ∨ edgePresetMode data = Except.ok DuuxEdgeClimate.PRESET_HIGH
      ∨ edgePresetMode data = Except.ok DuuxEdgeClimate.PRESET_BOOST) := by
  refine ⟨?_, ?_, ?_⟩
  · intro hh h1 h2 h3
    unfold edgePresetMode
    simp [hh, h1, h2, h3]
  · intro h
    unfold edgePresetMode
    rw [h]
    rfl
  · intro hh
    unfold edgePresetMode
    simp only [hh, Bool.not_true, Bool.false_eq_true, if_false]
    by_cases h1 : pyEqInt ((alistGet data "heatin").getD Value.none) 1 = true
    · simp [h1]
    · by_cases h2 : pyEqInt ((alistGet data "heatin").getD Value.none) 2 = true
      · simp [h1, h2]
      · by_cases h3 : pyEqInt ((alistGet data "heatin").getD Value.none) 3 = true
        · simp [h1, h2, h3]
        · simp [h1, h2, h3]

theorem C10_edge_default_low_witness :
    edgePresetMode [("heatin", Value.str "9")] = Except.ok DuuxEdgeClimate.PRESET_LOW :=
  (C10_edge_default_low [("heatin", Value.str "9")]).1 rfl rfl rfl rfl
